import Mathlib

/-!
Shallow embedding of the RFC MCP server core (src/rfc_mcp_server.py).

Python strings are modelled as lists of characters (`Str`), so that Python's
slicing, lower-casing, digit tests and prefix tests become the corresponding
`List` operations. Lower/upper-casing is modelled over the basic latin range
(`Char.toLower` / `Char.toUpper`), which covers every identifier the server
handles. Each handler performs exactly one outbound HTTP GET; the network is
modelled by an oracle value describing how that single interaction went
(a raised transport error, a non-2xx status surfaced by `raise_for_status`,
a body-parsing failure, or parsed data), and the handler is the pure function
from its arguments and that oracle to the returned list of content blocks.
-/

/-- A Python string value, as its sequence of code points. -/
abbrev Str := List Char

/-- Embed a Lean string literal as a Python string value. -/
def str (s : String) : Str := s.data

/-- Python `s.lower()` (basic latin range). -/
def pyLower (s : Str) : Str := s.map Char.toLower

/-- Python `s.upper()` (basic latin range). -/
def pyUpper (s : Str) : Str := s.map Char.toUpper

/-- Python `s.isdigit()`: true iff `s` is non-empty and every character is a
decimal digit. -/
def pyIsDigit (s : Str) : Bool := !s.isEmpty && s.all Char.isDigit

/-- Python `s.startswith(pre)`. -/
def pyStartsWith (s pre : Str) : Bool := pre.isPrefixOf s

/-- Python `s[:n]`. -/
def pySlice (s : Str) (n : Nat) : Str := s.take n

/-- A JSON-ish argument value as it appears in an invocation's `arguments`
mapping. The handlers under verification only ever read string and integer
arguments. -/
inductive JValue where
  | jstr : Str → JValue
  | jint : Int → JValue
deriving DecidableEq

/-- Python `str(v)` / f-string interpolation of an argument value. -/
def JValue.pyStr : JValue → Str
  | .jstr s => s
  | .jint n => str (toString n)

/-- The string payload of a string-typed argument. The source reads the
argument unchecked and immediately uses string methods on it, so the model is
only exercised on string payloads. -/
def JValue.asStr : JValue → Str
  | .jstr s => s
  | .jint _ => []

/-- An invocation's `arguments` mapping (Python dict with unique keys). -/
abbrev Arguments := List (Str × JValue)

/-- Python `args.get(k)`: the value at key `k`, if present. -/
def Arguments.lookupKey : Arguments → Str → Option JValue
  | [], _ => none
  | (k', v) :: rest, k => if k' = k then some v else lookupKey rest k

/-- Python `args.get(k, d)`. -/
def Arguments.getD (args : Arguments) (k : Str) (d : JValue) : JValue :=
  (args.lookupKey k).getD d

/-- The protocol's text content block: `TextContent(type="text", text=...)`. -/
structure TextContent where
  type : Str
  text : Str
deriving DecidableEq

/-- A tool call's result: the list of content blocks a handler returns. -/
abbrev ToolResult := List TextContent

/-- Build the single text block `TextContent(type="text", text=t)`. -/
def textBlock (t : Str) : TextContent := ⟨str "text", t⟩

/-- One outbound HTTP GET request: target URL and query parameters. -/
structure HttpRequest where
  url : Str
  params : List (Str × JValue)
deriving DecidableEq

/-- `DATATRACKER_API_BASE` from the source. -/
def DATATRACKER_API_BASE : Str := str "https://datatracker.ietf.org/api/v1"

/-- One raw document object from the search endpoint's JSON (`data["objects"]`
entries); each field is absent or a string, read with `doc.get(...)`. -/
structure RawDoc where
  name : Option Str
  title : Option Str
  rev : Option Str
  abstract : Option Str
deriving DecidableEq

/-- The search-result projection built inside `search_rfcs`. -/
structure RFCSummary where
  name : Str
  title : Str
  rev : Str
  abstract : Str
deriving DecidableEq

/-- The per-document projection in the loop of `search_rfcs` (source lines
126-132). The abstract field embeds the Python conditional expression
`doc.get("abstract", "")[:200] + "..." if doc.get("abstract") else ""`:
the truthiness test selects the empty string whenever the abstract is absent
or empty, and otherwise the first 200 characters with `"..."` appended
unconditionally. -/
def projectDoc (d : RawDoc) : RFCSummary :=
  { name := d.name.getD (str "")
    title := d.title.getD (str "")
    rev := d.rev.getD (str "")
    abstract :=
      match d.abstract with
      | none => str ""
      | some a => if a.isEmpty then str "" else pySlice a 200 ++ str "..." }

/-- How the single outbound interaction of `search_rfcs` went: a transport
error raised by the client, a non-2xx status raised by `raise_for_status`,
a failure of `response.json()`, or parsed data (`data.get("objects", [])`,
with `none` when the `objects` key is absent). Every `msg` is the Python
`str(e)` of the raised exception. -/
inductive SearchOutcome where
  | netError (msg : Str)
  | httpError (status : Nat) (msg : Str)
  | parseError (msg : Str)
  | ok (objects : Option (List RawDoc))
deriving DecidableEq

/-- The outbound request `search_rfcs` issues (source lines 114-121). -/
def searchRequest (args : Arguments) : HttpRequest :=
  { url := DATATRACKER_API_BASE ++ str "/doc/document/"
    params := [(str "limit", args.getD (str "limit") (.jint 10)),
               (str "name__icontains", args.getD (str "query") (.jstr (str ""))),
               (str "type", .jstr (str "rfc"))] }

/-- One formatted search-result paragraph (source line 135). -/
def formatSummary (r : RFCSummary) : Str :=
  str "**" ++ r.name ++ str "** - " ++ r.title ++ str "\n" ++ r.abstract

/-- The `search_rfcs` handler (source lines 107-142) as a function of its
arguments and the outcome of its one outbound call. -/
def searchRfcs (args : Arguments) (outcome : SearchOutcome) : ToolResult :=
  let query := (args.getD (str "query") (.jstr (str ""))).pyStr
  match outcome with
  | .netError msg => [textBlock (str "Error searching RFCs: " ++ msg)]
  | .httpError _ msg => [textBlock (str "Error searching RFCs: " ++ msg)]
  | .parseError msg => [textBlock (str "Error searching RFCs: " ++ msg)]
  | .ok objects =>
      let results := (objects.getD []).map projectDoc
      [textBlock (str "Found " ++ str (toString results.length)
        ++ str " RFCs matching '" ++ query ++ str "':\n\n"
        ++ List.intercalate (str "\n\n") (results.map formatSummary))]

/-- The identifier normalization of `get_rfc` (source lines 149-154). -/
def normalizeRfcId (s : Str) : Str :=
  let s1 :=
    if pyIsDigit s then str "rfc" ++ s
    else if !pyStartsWith (pyLower s) (str "rfc") then str "rfc" ++ s
    else s
  pyLower s1

/-- Modelled from the spec's normalization-rule sentence, for comparison with
`normalizeRfcId` (which is embedded from the source): if the raw identifier is
all decimal digits, prefix the literal `rfc`; otherwise, if it does not
already begin with `rfc` case-insensitively, prefix `rfc`; finally lower-case
the whole string. -/
def specNormalizeRule (s : Str) : Str :=
  pyLower
    (if pyIsDigit s then str "rfc" ++ s
     else if !pyStartsWith (pyLower s) (str "rfc") then str "rfc" ++ s
     else s)

/-- One author object of the detail endpoint's JSON: `author.get("person", "")`. -/
structure Author where
  person : Option Str
deriving DecidableEq

/-- The detail endpoint's JSON document as `get_rfc` reads it (source lines
165-177); each scalar field is absent or already rendered as a string. -/
structure DetailData where
  name : Option Str
  title : Option Str
  abstract : Option Str
  rev : Option Str
  pages : Option Str
  authors : Option (List Author)
  stream : Option Str
  group : Option Str
  std_level : Option Str
  intended_std_level : Option Str
  rfc : Option Str
deriving DecidableEq

/-- The success formatting of `get_rfc` (source lines 165-192), embedding the
triple-quoted f-string: leading newline, title line with the upper-cased name,
metadata block (authors joined with a comma or `N/A`; standard level prefers
`std_level` and falls back to `intended_std_level` via Python `or`), then the
abstract. -/
def formatDetail (d : DetailData) : Str :=
  let authors := (d.authors.getD []).map (fun a => a.person.getD (str ""))
  let std := d.std_level.getD (str "")
  str "\n# " ++ pyUpper (d.name.getD (str "")) ++ str ": " ++ d.title.getD (str "")
    ++ str "\n\n## Metadata\n- **Authors**: "
    ++ (if authors.isEmpty then str "N/A" else List.intercalate (str ", ") authors)
    ++ str "\n- **Pages**: " ++ d.pages.getD (str "")
    ++ str "\n- **Stream**: " ++ d.stream.getD (str "")
    ++ str "\n- **Group**: " ++ d.group.getD (str "")
    ++ str "\n- **Standard Level**: "
    ++ (if std.isEmpty then d.intended_std_level.getD (str "") else std)
    ++ str "\n- **RFC Number**: " ++ d.rfc.getD (str "")
    ++ str "\n\n## Abstract\n" ++ d.abstract.getD (str "") ++ str "\n"

/-- How the single outbound interaction of `get_rfc` went. -/
inductive DetailOutcome where
  | netError (msg : Str)
  | httpError (status : Nat) (msg : Str)
  | parseError (msg : Str)
  | ok (data : DetailData)
deriving DecidableEq

/-- The normalized identifier `get_rfc` works with: the `rfc_identifier`
argument, defaulted to the empty string, then normalized (source lines
147-154). -/
def getRfcId (args : Arguments) : Str :=
  normalizeRfcId (args.getD (str "rfc_identifier") (.jstr (str ""))).asStr

/-- The outbound request `get_rfc` issues (source line 158). -/
def detailRequest (args : Arguments) : HttpRequest :=
  { url := DATATRACKER_API_BASE ++ str "/doc/document/" ++ getRfcId args ++ str "/"
    params := [] }

/-- The `get_rfc` handler (source lines 145-201). A non-2xx status is caught
as `httpx.HTTPStatusError`, with a dedicated message when the status is 404;
transport and parsing failures fall to the generic `except Exception` arm. -/
def getRfc (args : Arguments) (outcome : DetailOutcome) : ToolResult :=
  let rfc_id := getRfcId args
  match outcome with
  | .netError msg => [textBlock (str "Error fetching RFC: " ++ msg)]
  | .httpError status msg =>
      if status = 404 then
        [textBlock (str "RFC '" ++ rfc_id ++ str "' not found. Please check the RFC number.")]
      else
        [textBlock (str "HTTP error fetching RFC: " ++ msg)]
  | .parseError msg => [textBlock (str "Error fetching RFC: " ++ msg)]
  | .ok d => [textBlock (formatDetail d)]

/-- How the single outbound interaction of `get_rfc_text` went; on success the
oracle carries `response.text`. -/
inductive TextOutcome where
  | netError (msg : Str)
  | httpError (status : Nat) (msg : Str)
  | ok (body : Str)
deriving DecidableEq

/-- The `rfc_number` argument, defaulted to 0 (source line 206). -/
def getRfcNum (args : Arguments) : JValue :=
  args.getD (str "rfc_number") (.jint 0)

/-- The outbound request `get_rfc_text` issues (source line 210). -/
def textRequest (args : Arguments) : HttpRequest :=
  { url := str "https://www.rfc-editor.org/rfc/rfc" ++ (getRfcNum args).pyStr ++ str ".txt"
    params := [] }

/-- The body truncation of `get_rfc_text` (source lines 217-218): a body
longer than 50,000 characters is cut to its first 50,000 characters and the
suffix `"\n\n[... content truncated for length ...]"` is appended. -/
def truncateBody (s : Str) : Str :=
  if s.length > 50000 then
    pySlice s 50000 ++ str "\n\n[... content truncated for length ...]"
  else s

/-- The `get_rfc_text` handler (source lines 204-227). -/
def getRfcText (args : Arguments) (outcome : TextOutcome) : ToolResult :=
  let rfc_num := (getRfcNum args).pyStr
  match outcome with
  | .netError msg => [textBlock (str "Error fetching RFC text: " ++ msg)]
  | .httpError status msg =>
      if status = 404 then
        [textBlock (str "RFC " ++ rfc_num ++ str " text not found.")]
      else
        [textBlock (str "HTTP error fetching RFC text: " ++ msg)]
  | .ok body =>
      [textBlock (str "RFC " ++ rfc_num ++ str " Full Text:\n\n" ++ truncateBody body)]

/-- The per-call network oracle: one outcome per handler's single outbound
interaction, should that handler run. -/
structure Oracles where
  search : SearchOutcome
  detail : DetailOutcome
  rfcText : TextOutcome

/-- The three registered tool names, in registry order. -/
def registeredToolNames : List Str :=
  [str "search_rfcs", str "get_rfc", str "get_rfc_text"]

/-- The dispatcher `call_tool` (source lines 93-104): route a known name to
its handler and return its result verbatim; raise `ValueError("Unknown tool:
...")` otherwise, propagated to the transport layer rather than converted to
a text result. -/
def callTool (name : Str) (arguments : Arguments) (o : Oracles) :
    Except Str ToolResult :=
  if name = str "search_rfcs" then .ok (searchRfcs arguments o.search)
  else if name = str "get_rfc" then .ok (getRfc arguments o.detail)
  else if name = str "get_rfc_text" then .ok (getRfcText arguments o.rfcText)
  else .error (str "Unknown tool: " ++ name)

/-- The outbound requests a `call_tool` invocation gives rise to: each handler
opens its client and issues exactly one GET, and an unknown name raises before
any handler (hence any network activity) is reached. -/
def callToolRequests (name : Str) (arguments : Arguments) : List HttpRequest :=
  if name = str "search_rfcs" then [searchRequest arguments]
  else if name = str "get_rfc" then [detailRequest arguments]
  else if name = str "get_rfc_text" then [textRequest arguments]
  else []

/-- A 50,001-character body, exceeding the 50,000-character cap by one. -/
def body50001 : Str := List.replicate 50001 'a'

/-- A fixed oracle used to instantiate dispatch statements on concrete calls. -/
def oracle0 : Oracles :=
  ⟨.netError (str ""), .netError (str ""), .netError (str "")⟩

theorem toNat_ofNat_of_valid {n : Nat} (h : n.isValidChar) :
    (Char.ofNat n).toNat = n := by
  rw [Char.ofNat, dif_pos h]
  rfl

theorem toLower_toLower (c : Char) : c.toLower.toLower = c.toLower := by
  unfold Char.toLower
  by_cases h : c.toNat ≥ 65 ∧ c.toNat ≤ 90
  · rw [if_pos h]
    have hv : (c.toNat + 32).isValidChar := Or.inl (by omega)
    have ht : (Char.ofNat (c.toNat + 32)).toNat = c.toNat + 32 :=
      toNat_ofNat_of_valid hv
    rw [if_neg]
    omega
  · rw [if_neg h, if_neg h]

theorem pyLower_idem (s : Str) : pyLower (pyLower s) = pyLower s := by
  simp only [pyLower, List.map_map]
  exact List.map_congr_left (fun c _ => toLower_toLower c)

theorem pyLower_normalizeRfcId (s : Str) :
    pyLower (normalizeRfcId s) = normalizeRfcId s := by
  unfold normalizeRfcId
  exact pyLower_idem _

theorem normalizeRfcId_shape (s : Str) :
    ∃ t, normalizeRfcId s = str "rfc" ++ t := by
  unfold normalizeRfcId
  by_cases h1 : pyIsDigit s
  · refine ⟨pyLower s, ?_⟩
    simp [h1, pyLower, str]
  · by_cases h2 : pyStartsWith (pyLower s) (str "rfc")
    · obtain ⟨t, ht⟩ := (List.isPrefixOf_iff_prefix).mp h2
      refine ⟨t, ?_⟩
      simp only [h1, if_false, h2, Bool.not_true, Bool.false_eq_true, if_false]
      exact ht.symm
    · refine ⟨pyLower s, ?_⟩
      rw [Bool.not_eq_true] at h2
      simp only [pyLower, str] at h2
      simp [h1, h2, pyLower, str]

theorem normalizeRfcId_eq_of (r : Str) (h1 : pyIsDigit r = false)
    (h2 : pyStartsWith (pyLower r) (str "rfc") = true) :
    normalizeRfcId r = pyLower r := by
  unfold normalizeRfcId
  simp [h1, h2]

/-- Claim C3: the RFC identifier normalization used by `get_rfc` is
idempotent — applying it twice yields the same result as applying it once. -/
theorem normalizeRfcId_idem (s : Str) :
    normalizeRfcId (normalizeRfcId s) = normalizeRfcId s := by
  obtain ⟨t, ht⟩ := normalizeRfcId_shape s
  have hlow := pyLower_normalizeRfcId s
  have h1 : pyIsDigit (normalizeRfcId s) = false := by
    rw [ht]; simp [pyIsDigit, str]
  have h2 : pyStartsWith (pyLower (normalizeRfcId s)) (str "rfc") = true := by
    rw [hlow, ht]
    simp only [pyStartsWith, List.isPrefixOf_iff_prefix]
    exact ⟨t, rfl⟩
  rw [normalizeRfcId_eq_of _ h1 h2, hlow]

/-- Claim C4: the `get_rfc` identifier normalization agrees, on every input,
with the spec's stated rule (all-digits inputs get an `rfc` prefix; otherwise
inputs not already beginning with `rfc` case-insensitively get the prefix; the
result is lower-cased), and `"4271"`, `"RFC4271"`, `"rfc4271"` all normalize
to `"rfc4271"`. -/
theorem normalizeRfcId_follows_spec_rule (s : Str) :
    normalizeRfcId s = specNormalizeRule s ∧
    normalizeRfcId (str "4271") = str "rfc4271" ∧
    normalizeRfcId (str "RFC4271") = str "rfc4271" ∧
    normalizeRfcId (str "rfc4271") = str "rfc4271" :=
  ⟨rfl, by decide, by decide, by decide⟩

/-- Claim C1 (counterexample): the source abstract `"a"` has length ≤ 200,
yet the `search_rfcs` projection returns it with `"..."` appended rather than
unchanged, both at the projection and in the handler's formatted output. -/
theorem searchAbstract_short_gets_ellipsis :
    (str "a").length ≤ 200 ∧
    (projectDoc ⟨some (str "rfc9999"), some (str "T"), some (str "01"),
        some (str "a")⟩).abstract ≠ str "a" ∧
    (projectDoc ⟨some (str "rfc9999"), some (str "T"), some (str "01"),
        some (str "a")⟩).abstract = str "a..." ∧
    searchRfcs [(str "query", .jstr (str "q"))]
        (.ok (some [⟨some (str "rfc9999"), some (str "T"), some (str "01"),
          some (str "a")⟩])) =
      [textBlock (str "Found 1 RFCs matching 'q':\n\n**rfc9999** - T\na...")] := by
  refine ⟨by decide, by decide, by decide, by decide⟩

/-- Claim C1 (amended): in the `search_rfcs` projection, a missing or empty
source abstract yields the empty string with no ellipsis; every non-empty
source abstract yields its first 200 characters with a trailing `"..."`
appended — even when its length is at most 200, in which case the content
below the cap is unaltered and only the ellipsis is added. -/
theorem projectDoc_abstract_cases (d : RawDoc) (a : Str) :
    (d.abstract = none → (projectDoc d).abstract = str "") ∧
    (d.abstract = some (str "") → (projectDoc d).abstract = str "") ∧
    (d.abstract = some a → a ≠ str "" →
      (projectDoc d).abstract = pySlice a 200 ++ str "...") ∧
    (d.abstract = some a → a ≠ str "" → a.length ≤ 200 →
      (projectDoc d).abstract = a ++ str "...") := by
  refine ⟨fun h => ?_, fun h => ?_, fun h hne => ?_, fun h hne hlen => ?_⟩
  · simp [projectDoc, h]
  · simp [projectDoc, h, str]
  · have hne' : a.isEmpty = false := by
      rw [Bool.eq_false_iff]
      intro hc
      exact hne (List.isEmpty_iff.mp hc)
    simp [projectDoc, h, hne']
  · have hne' : a.isEmpty = false := by
      rw [Bool.eq_false_iff]
      intro hc
      exact hne (List.isEmpty_iff.mp hc)
    simp [projectDoc, h, hne', pySlice, List.take_of_length_le hlen]

/-- Claim C1 (witness for the amended statement): a missing abstract projects
to the empty string, and the three-character abstract `"abc"` projects to
`"abc..."`. -/
theorem projectDoc_abstract_cases_w :
    (projectDoc ⟨none, none, none, none⟩).abstract = str "" ∧
    (projectDoc ⟨none, none, none, some (str "abc")⟩).abstract =
      str "abc" ++ str "..." :=
  ⟨(projectDoc_abstract_cases ⟨none, none, none, none⟩ (str "")).1 rfl,
   (projectDoc_abstract_cases ⟨none, none, none, some (str "abc")⟩
      (str "abc")).2.2.2 rfl (by decide) (by decide)⟩

/-- Claim C5: a 404 from the detail endpoint makes `get_rfc` return the
successful single text block `RFC '<id>' not found. Please check the RFC
number.` with the normalized identifier interpolated, and in particular
identifier `"99999999"` yields exactly
`RFC 'rfc99999999' not found. Please check the RFC number.` -/
theorem getRfc_notFound_text (args : Arguments) (msg m : Str) :
    getRfc args (.httpError 404 msg) =
      [textBlock (str "RFC '" ++ getRfcId args
        ++ str "' not found. Please check the RFC number.")] ∧
    getRfc [(str "rfc_identifier", .jstr (str "99999999"))] (.httpError 404 m) =
      [textBlock (str "RFC 'rfc99999999' not found. Please check the RFC number.")] := by
  constructor
  · rfl
  · show [textBlock (str "RFC '"
        ++ getRfcId [(str "rfc_identifier", .jstr (str "99999999"))]
        ++ str "' not found. Please check the RFC number.")] = _
    have h : getRfcId [(str "rfc_identifier", .jstr (str "99999999"))] =
        str "rfc99999999" := by decide
    rw [h]
    decide

/-- Claim C7: every failure mode inside `search_rfcs` — transport error,
non-2xx HTTP status, response-parsing failure — is converted into the single
successful text block `Error searching RFCs: <message>`, and the dispatcher
still receives an ordinary successful result, never a propagated error. -/
theorem searchRfcs_failure_policy (args : Arguments) (msg : Str) (status : Nat)
    (o : Oracles) :
    searchRfcs args (.netError msg) =
      [textBlock (str "Error searching RFCs: " ++ msg)] ∧
    searchRfcs args (.httpError status msg) =
      [textBlock (str "Error searching RFCs: " ++ msg)] ∧
    searchRfcs args (.parseError msg) =
      [textBlock (str "Error searching RFCs: " ++ msg)] ∧
    callTool (str "search_rfcs") args o = .ok (searchRfcs args o.search) :=
  ⟨rfl, rfl, rfl, rfl⟩

/-- Claim C8: every result produced by any of the three handlers, on every
path, is a sequence of exactly one text content block. -/
theorem handlers_single_text_block (args : Arguments) (oS : SearchOutcome)
    (oD : DetailOutcome) (oT : TextOutcome) :
    (∃ t, searchRfcs args oS = [⟨str "text", t⟩]) ∧
    (∃ t, getRfc args oD = [⟨str "text", t⟩]) ∧
    (∃ t, getRfcText args oT = [⟨str "text", t⟩]) := by
  refine ⟨?_, ?_, ?_⟩
  · cases oS <;> exact ⟨_, rfl⟩
  · cases oD with
    | netError msg => exact ⟨_, rfl⟩
    | parseError msg => exact ⟨_, rfl⟩
    | ok d => exact ⟨_, rfl⟩
    | httpError status msg =>
        by_cases h : status = 404
        · subst h
          exact ⟨_, rfl⟩
        · exact ⟨str "HTTP error fetching RFC: " ++ msg,
            by simp [getRfc, h, textBlock]⟩
  · cases oT with
    | netError msg => exact ⟨_, rfl⟩
    | ok body => exact ⟨_, rfl⟩
    | httpError status msg =>
        by_cases h : status = 404
        · subst h
          exact ⟨_, rfl⟩
        · exact ⟨str "HTTP error fetching RFC text: " ++ msg,
            by simp [getRfcText, h, textBlock]⟩

/-- Claim C2: dispatching any name outside the three registered ones fails
with the propagated `Unknown tool` error and issues no outbound request, while
each registered name is forwarded to its handler and that handler's result is
returned verbatim. -/
theorem callTool_dispatch (name : Str) (args : Arguments) (o : Oracles)
    (h : name ∉ registeredToolNames) :
    callTool name args o = .error (str "Unknown tool: " ++ name) ∧
    callToolRequests name args = [] ∧
    callTool (str "search_rfcs") args o = .ok (searchRfcs args o.search) ∧
    callTool (str "get_rfc") args o = .ok (getRfc args o.detail) ∧
    callTool (str "get_rfc_text") args o = .ok (getRfcText args o.rfcText) := by
  simp only [registeredToolNames, List.mem_cons, List.not_mem_nil, or_false,
    not_or] at h
  obtain ⟨h1, h2, h3⟩ := h
  refine ⟨?_, ?_, rfl, rfl, rfl⟩
  · simp only [callTool, if_neg h1, if_neg h2, if_neg h3]
  · simp only [callToolRequests, if_neg h1, if_neg h2, if_neg h3]

/-- Claim C2 (witness): dispatching `delete_everything` fails with the
propagated `Unknown tool` error and issues no outbound request, and the three
registered names forward to their handlers. -/
theorem callTool_dispatch_w :
    callTool (str "delete_everything") [] oracle0 =
      .error (str "Unknown tool: " ++ str "delete_everything") ∧
    callToolRequests (str "delete_everything") [] = [] ∧
    callTool (str "search_rfcs") [] oracle0 = .ok (searchRfcs [] oracle0.search) ∧
    callTool (str "get_rfc") [] oracle0 = .ok (getRfc [] oracle0.detail) ∧
    callTool (str "get_rfc_text") [] oracle0 =
      .ok (getRfcText [] oracle0.rfcText) :=
  callTool_dispatch (str "delete_everything") [] oracle0 (by decide)

theorem body50001_length : body50001.length = 50001 := by
  rw [show body50001 = List.replicate 50001 'a' from rfl, List.length_replicate]

theorem truncateBody_gt (s : Str) (h : s.length > 50000) :
    truncateBody s =
      pySlice s 50000 ++ str "\n\n[... content truncated for length ...]" := by
  simp [truncateBody, h]

/-- Claim C6 (counterexample): on a body of 50,001 characters, the truncated
body is not the first 50,000 characters followed by the bare marker
`... content truncated for length ...` — the source appends the longer suffix
with two newlines and surrounding brackets. -/
theorem truncateBody_marker_counterexample :
    body50001.length > 50000 ∧
    truncateBody body50001 ≠
      pySlice body50001 50000 ++ str "... content truncated for length ..." := by
  refine ⟨by rw [body50001_length]; norm_num, ?_⟩
  intro h
  rw [truncateBody_gt body50001 (by rw [body50001_length]; norm_num)] at h
  have hl := congrArg List.length h
  simp only [List.length_append] at hl
  have h40 : (str "\n\n[... content truncated for length ...]").length = 40 := by
    decide
  have h36 : (str "... content truncated for length ...").length = 36 := by
    decide
  omega

/-- Claim C6 (amended): a fetched body longer than 50,000 characters is
returned as exactly its first 50,000 characters followed by the literal suffix
`"\n\n[... content truncated for length ...]"` (two newlines and brackets
around the marker); a body of length at most 50,000 is returned unchanged; and
the handler emits the truncated body after its header line. -/
theorem truncateBody_amended (b : Str) (args : Arguments) :
    (b.length > 50000 →
      truncateBody b =
        pySlice b 50000 ++ str "\n\n[... content truncated for length ...]") ∧
    (b.length ≤ 50000 → truncateBody b = b) ∧
    getRfcText args (.ok b) =
      [textBlock (str "RFC " ++ (getRfcNum args).pyStr ++ str " Full Text:\n\n"
        ++ truncateBody b)] := by
  refine ⟨fun h => by simp [truncateBody, h], fun h => ?_, rfl⟩
  simp only [truncateBody]
  rw [if_neg (by omega)]

/-- Claim C6 (witness for the amended statement): a 50,001-character body is
truncated with the bracketed suffix appended, and the one-character body `"x"`
is returned unchanged. -/
theorem truncateBody_amended_w :
    truncateBody body50001 =
      pySlice body50001 50000 ++ str "\n\n[... content truncated for length ...]" ∧
    truncateBody (str "x") = str "x" :=
  ⟨(truncateBody_amended body50001 []).1 (by rw [body50001_length]; norm_num),
   (truncateBody_amended (str "x") []).2.1 (by decide)⟩

/-- Claim C9: when the arguments mapping has no `limit` key, `search_rfcs`
behaves exactly as if the caller had supplied `limit=10`: the outbound
request's `limit` parameter is 10, and both the request and the handler result
coincide with those for explicitly supplied `limit=10`. -/
theorem searchRfcs_default_limit (args : Arguments) (o : SearchOutcome)
    (h : args.lookupKey (str "limit") = none) :
    (searchRequest args).params =
      [(str "limit", .jint 10),
       (str "name__icontains", args.getD (str "query") (.jstr (str ""))),
       (str "type", .jstr (str "rfc"))] ∧
    searchRequest args = searchRequest ((str "limit", .jint 10) :: args) ∧
    searchRfcs args o = searchRfcs ((str "limit", .jint 10) :: args) o := by
  have hq : Arguments.lookupKey ((str "limit", JValue.jint 10) :: args)
      (str "query") = args.lookupKey (str "query") := by
    simp only [Arguments.lookupKey]
    rw [if_neg (by decide)]
  have hl : Arguments.lookupKey ((str "limit", JValue.jint 10) :: args)
      (str "limit") = some (.jint 10) := by
    simp [Arguments.lookupKey]
  refine ⟨?_, ?_, ?_⟩
  · simp [searchRequest, Arguments.getD, h]
  · simp [searchRequest, Arguments.getD, h, hq, hl]
  · cases o <;> simp [searchRfcs, Arguments.getD, hq]

/-- Claim C9 (witness): with only a `query` argument, the outbound request
carries `limit=10` and request and result agree with an explicit `limit=10`. -/
theorem searchRfcs_default_limit_w :
    (searchRequest [(str "query", .jstr (str "HTTP"))]).params =
      [(str "limit", .jint 10),
       (str "name__icontains",
         Arguments.getD [(str "query", .jstr (str "HTTP"))] (str "query")
           (.jstr (str ""))),
       (str "type", .jstr (str "rfc"))] ∧
    searchRequest [(str "query", .jstr (str "HTTP"))] =
      searchRequest ((str "limit", .jint 10) :: [(str "query", .jstr (str "HTTP"))]) ∧
    searchRfcs [(str "query", .jstr (str "HTTP"))] (.ok none) =
      searchRfcs ((str "limit", .jint 10) :: [(str "query", .jstr (str "HTTP"))])
        (.ok none) :=
  searchRfcs_default_limit [(str "query", .jstr (str "HTTP"))] (.ok none)
    (by decide)

/-- Claim C10: when the arguments mapping lacks `rfc_identifier`, `get_rfc`
proceeds with the empty string, which normalizes to exactly `rfc`, so the
detail fetch targets the document id `rfc` (no validation failure before the
fetch), and a 404 answer then reports `RFC 'rfc' not found.`. -/
theorem getRfc_missing_identifier (args : Arguments)
    (h : args.lookupKey (str "rfc_identifier") = none) :
    getRfcId args = str "rfc" ∧
    detailRequest args =
      ⟨str "https://datatracker.ietf.org/api/v1/doc/document/rfc/", []⟩ ∧
    getRfc args (.httpError 404 (str "boom")) =
      [textBlock (str "RFC 'rfc' not found. Please check the RFC number.")] := by
  have hid : getRfcId args = str "rfc" := by
    simp only [getRfcId, Arguments.getD, h, Option.getD_none]
    decide
  refine ⟨hid, ?_, ?_⟩
  · simp only [detailRequest, hid]
    decide
  · show [textBlock (str "RFC '" ++ getRfcId args
        ++ str "' not found. Please check the RFC number.")] = _
    rw [hid]
    decide

/-- Claim C10 (witness): with an empty arguments mapping, the normalized
identifier is `rfc`, the fetch targets the document id `rfc`, and a 404 is
reported with that identifier. -/
theorem getRfc_missing_identifier_w :
    getRfcId [] = str "rfc" ∧
    detailRequest [] =
      ⟨str "https://datatracker.ietf.org/api/v1/doc/document/rfc/", []⟩ ∧
    getRfc [] (.httpError 404 (str "boom")) =
      [textBlock (str "RFC 'rfc' not found. Please check the RFC number.")] :=
  getRfc_missing_identifier [] rfl
